import Mathlib

/-!
# Verification of the fraud-prediction pipeline (`src/index.ts`)

Shallow embedding of the request-handling pipeline of the fraud-detection
service: input validation (the zod `QuerySchema`), normalization
(`normalizeData`), the scaler load (line 12), the `/predict` handler and the
Express routing stack.

JavaScript numbers are modelled as exact rationals extended with `NaN` and the
two infinities (the spec idealizes arithmetic "exact over the reals"); the
negative zero of IEEE 754 is collapsed onto `0`.  Strings are Lean strings.
Ambient process state (`process.env`, the loaded scaler) is passed explicitly
as parameters.
-/

/-- A JavaScript number: `NaN`, `Infinity`, `-Infinity`, or a finite value
(modelled as an exact rational). -/
inductive JsNum where
  | nan
  | posInf
  | negInf
  | fin (q : ℚ)
deriving DecidableEq, Repr

/-- JavaScript subtraction on numbers (as used in `normalizeData`, line 125). -/
def JsNum.sub : JsNum → JsNum → JsNum
  | .nan, _ => .nan
  | _, .nan => .nan
  | .fin a, .fin b => .fin (a - b)
  | .posInf, .posInf => .nan
  | .posInf, _ => .posInf
  | .negInf, .negInf => .nan
  | .negInf, _ => .negInf
  | .fin _, .posInf => .negInf
  | .fin _, .negInf => .posInf

/-- JavaScript division on numbers (as used in `normalizeData`, line 125).
`x / 0` follows the IEEE rules with `-0` collapsed to `0`. -/
def JsNum.div : JsNum → JsNum → JsNum
  | .nan, _ => .nan
  | _, .nan => .nan
  | .posInf, .posInf => .nan
  | .posInf, .negInf => .nan
  | .negInf, .posInf => .nan
  | .negInf, .negInf => .nan
  | .posInf, .fin b => if b < 0 then .negInf else .posInf
  | .negInf, .fin b => if b < 0 then .posInf else .negInf
  | .fin _, .posInf => .fin 0
  | .fin _, .negInf => .fin 0
  | .fin a, .fin b =>
      if b = 0 then (if a = 0 then .nan else if 0 < a then .posInf else .negInf)
      else .fin (a / b)

/-- JavaScript strict `>` on numbers (line 169): any comparison involving
`NaN` is false. -/
def JsNum.jgt : JsNum → JsNum → Bool
  | .nan, _ => false
  | _, .nan => false
  | .posInf, .posInf => false
  | .posInf, _ => true
  | _, .posInf => false
  | .negInf, _ => false
  | .fin _, .negInf => true
  | .fin a, .fin b => decide (b < a)

/-- The white-space characters trimmed by JavaScript `ToNumber` on strings. -/
def isJsSpace (c : Char) : Bool :=
  c = ' ' || c = '\t' || c = '\n' || c = '\r' || c = '\x0b' || c = '\x0c' || c = '\xa0'

/-- Trim JS whitespace from both ends of a character list. -/
def trimJs (cs : List Char) : List Char :=
  ((cs.dropWhile isJsSpace).reverse.dropWhile isJsSpace).reverse

/-- Value of a list of decimal digits (the caller checks they are digits). -/
def decDigitsVal (cs : List Char) : ℕ :=
  cs.foldl (fun a c => a * 10 + (c.toNat - 48)) 0

/-- A nonempty all-decimal-digit list, as a natural number. -/
def decDigits? (cs : List Char) : Option ℕ :=
  if cs = [] then none
  else if cs.all Char.isDigit then some (decDigitsVal cs) else none

/-- Value of one digit in bases up to 16, accepting both letter cases. -/
def hexDigitVal? (c : Char) : Option ℕ :=
  if c.isDigit then some (c.toNat - 48)
  else if 'a' ≤ c && c ≤ 'f' then some (c.toNat - 87)
  else if 'A' ≤ c && c ≤ 'F' then some (c.toNat - 55)
  else none

/-- A nonempty digit list in the given radix, as a natural number
(for the `0x` / `0o` / `0b` literal forms of `ToNumber`). -/
def radixVal? (radix : ℕ) (cs : List Char) : Option ℕ :=
  if cs = [] then none
  else cs.foldlM (fun a c =>
    (hexDigitVal? c).bind (fun d => if d < radix then some (a * radix + d) else none)) 0

/-- Split a character list at the first character satisfying `p`; the second
component is `none` when no such character occurs. -/
def splitAtFirst (p : Char → Bool) : List Char → List Char × Option (List Char)
  | [] => ([], none)
  | c :: rest =>
    if p c then ([], some rest)
    else
      let (a, b) := splitAtFirst p rest
      (c :: a, b)

/-- `10 ^ e` over ℚ for an integer exponent. -/
def pow10 : ℤ → ℚ
  | .ofNat n => (10 : ℚ) ^ n
  | .negSucc n => 1 / (10 : ℚ) ^ (n + 1)

/-- The exponent part of a decimal literal: optional sign, then digits. -/
def parseExp? (cs : List Char) : Option ℤ :=
  match cs with
  | '+' :: rest => (decDigits? rest).map (fun n => (n : ℤ))
  | '-' :: rest => (decDigits? rest).map (fun n => -(n : ℤ))
  | _ => (decDigits? cs).map (fun n => (n : ℤ))

/-- An unsigned decimal literal of `StrDecimalLiteral`: `digits`, `digits.digits`,
`.digits`, `digits.`, each with an optional `e`/`E` exponent. -/
def parseUnsignedDec? (cs : List Char) : Option ℚ :=
  let (mant, expPart) := splitAtFirst (fun c => c = 'e' || c = 'E') cs
  match (match expPart with | none => some (0 : ℤ) | some e => parseExp? e) with
  | none => none
  | some ex =>
    let (ip, fp?) := splitAtFirst (fun c => c = '.') mant
    match fp? with
    | none => (decDigits? ip).map (fun n => (n : ℚ) * pow10 ex)
    | some fp =>
      if ip = [] && fp = [] then none
      else if ip.all Char.isDigit && fp.all Char.isDigit then
        some (((decDigitsVal ip : ℚ) + (decDigitsVal fp : ℚ) / (10 : ℚ) ^ fp.length)
          * pow10 ex)
      else none

/-- A signed decimal literal or `Infinity` (the `StrDecimalLiteral` branch). -/
def parseSignedDec (cs : List Char) : JsNum :=
  let (neg, body) :=
    match cs with
    | '+' :: r => (false, r)
    | '-' :: r => (true, r)
    | r => (false, r)
  if body = "Infinity".toList then (if neg then .negInf else .posInf)
  else
    match parseUnsignedDec? body with
    | some q => .fin (if neg then -q else q)
    | none => .nan

/-- JavaScript `Number(s)` on a string `s` (ECMAScript `ToNumber`): trim
whitespace, the empty remainder is `0`, then a decimal literal (optionally
signed, possibly `Infinity`) or an unsigned `0x`/`0o`/`0b` literal; anything
else is `NaN`.  This is the coercion applied by the zod schema's
`.transform(Number)` (lines 16-20). -/
def jsStrToNumber (s : String) : JsNum :=
  match trimJs s.toList with
  | [] => .fin 0
  | '0' :: b :: rest =>
    if b = 'x' || b = 'X' then
      match radixVal? 16 rest with | some n => .fin n | none => .nan
    else if b = 'o' || b = 'O' then
      match radixVal? 8 rest with | some n => .fin n | none => .nan
    else if b = 'b' || b = 'B' then
      match radixVal? 2 rest with | some n => .fin n | none => .nan
    else parseSignedDec ('0' :: b :: rest)
  | cs => parseSignedDec cs


/-! ## Input Validator (the zod `QuerySchema`, lines 15-21) -/

/-- The query string of a request: parameter name / value pairs.  Lookup takes
the first binding, matching how a single-valued query parameter is read. -/
abbrev Query := List (String × String)

/-- The issue codes zod produces here: `invalid_type` for a missing key
(`z.string()` on `undefined`) and `custom` for a failed `.refine`. -/
inductive ZodCode where
  | invalidType
  | custom
deriving DecidableEq, Repr

/-- One entry of a `ZodError`'s `errors` list: the path of the offending field
and the issue code. -/
structure ZodIssue where
  path : List String
  code : ZodCode
deriving DecidableEq, Repr

/-- The validated value produced by `QuerySchema.parse` (lines 15-21): the five
features, each already coerced by `.transform(Number)`. -/
structure ParsedQuery where
  distance : JsNum
  ratio_to_median : JsNum
  pin : JsNum
  chip : JsNum
  online : JsNum
deriving DecidableEq, Repr

/-- `z.string().transform(Number)` on one field (lines 16-17): a missing key is
an `invalid_type` issue; any present string is coerced with `Number` and
accepted — there is no refinement, so `NaN` passes. -/
def parseNumField (q : Query) (name : String) : Except ZodIssue JsNum :=
  match q.lookup name with
  | none => .error ⟨[name], .invalidType⟩
  | some s => .ok (jsStrToNumber s)

/-- `z.string().transform(Number).refine(val => val === 0 || val === 1)` on one
field (lines 18-20). -/
def parseBinaryField (q : Query) (name : String) : Except ZodIssue JsNum :=
  match q.lookup name with
  | none => .error ⟨[name], .invalidType⟩
  | some s =>
    let v := jsStrToNumber s
    if v = .fin 0 || v = .fin 1 then .ok v else .error ⟨[name], .custom⟩

/-- The issue list contributed by one field result. -/
def errList : Except ZodIssue JsNum → List ZodIssue
  | .error e => [e]
  | .ok _ => []

/-- All issues of `QuerySchema.parse`, in the schema's field order (zod
collects every field's problems rather than stopping at the first). -/
def parseQueryErrors (q : Query) : List ZodIssue :=
  errList (parseNumField q "distance") ++ errList (parseNumField q "ratio_to_median")
    ++ errList (parseBinaryField q "pin") ++ errList (parseBinaryField q "chip")
    ++ errList (parseBinaryField q "online")

/-- `QuerySchema.parse` (line 138): the validated `ParsedQuery` when every
field parses, otherwise the `ZodError` with the collected issue list. -/
def parseQuery (q : Query) : Except (List ZodIssue) ParsedQuery :=
  match parseNumField q "distance", parseNumField q "ratio_to_median",
      parseBinaryField q "pin", parseBinaryField q "chip", parseBinaryField q "online" with
  | .ok d, .ok r, .ok p, .ok c, .ok o => .ok ⟨d, r, p, c, o⟩
  | _, _, _, _, _ => .error (parseQueryErrors q)

/-! ## Scaler Store (line 12) -/

/-- A JSON value, the result of `JSON.parse`. -/
inductive JVal where
  | null
  | bool (b : Bool)
  | num (q : ℚ)
  | str (s : String)
  | arr (elems : List JVal)
  | obj (fields : List (String × JVal))

/-- What `fs.readFileSync('src/scaler.json')` followed by `JSON.parse` can
encounter: a missing file, content that is not JSON, or a parsed value. -/
inductive ScalerSource where
  | missing
  | unparseable (raw : String)
  | parsed (v : JVal)

/-- The two module-load-time failures of line 12. -/
inductive LoadError where
  | enoent
  | syntaxError
deriving DecidableEq, Repr

/-- Line 12: `const scalerData = JSON.parse(fs.readFileSync('src/scaler.json',
'utf-8'))`.  `readFileSync` throws on a missing file and `JSON.parse` throws on
malformed text — either aborts the module load, so the process never serves.
The parsed value is bound as-is: no shape, length, or zero-scale check is
performed. -/
def loadScaler : ScalerSource → Except LoadError JVal
  | .missing => .error .enoent
  | .unparseable _ => .error .syntaxError
  | .parsed v => .ok v

/-! ## Normalizer (`normalizeData`, lines 123-127) -/

/-- The mean/scale vectors the handler reads from `scalerData`. -/
structure ScalerVectors where
  mean : List JsNum
  scale : List JsNum
deriving DecidableEq, Repr

/-- JavaScript array indexing as it occurs inside `normalizeData`: an
out-of-range read yields `undefined`, which behaves as `NaN` once it enters
the arithmetic of line 125. -/
def jsIndex (l : List JsNum) (i : ℕ) : JsNum :=
  (l.get? i).getD .nan

/-- `normalizeData` (lines 123-127): `data.map((value, index) =>
(value - scalerData.mean[index]) / scalerData.scale[index])`. -/
def normalizeData (mean scale : List JsNum) (data : List JsNum) : List JsNum :=
  data.mapIdx (fun index value =>
    JsNum.div (JsNum.sub value (jsIndex mean index)) (jsIndex scale index))

/-! ## Inference Client (lines 150-166) -/

/-- One entry of the `inputs` array of the request body (lines 156-161). -/
structure InferenceInput where
  name : String
  shape : List ℕ
  datatype : String
  data : List JsNum
deriving DecidableEq, Repr

/-- The request body posted to the model service (lines 155-162). -/
structure InferenceRequest where
  inputs : List InferenceInput
deriving DecidableEq, Repr

/-- One entry of the `outputs` array of the backend's response body. -/
structure OutputEntry where
  data : List JsNum
deriving DecidableEq, Repr

/-- The backend's response body, as read on line 165. -/
structure InferenceResponse where
  outputs : List OutputEntry
deriving DecidableEq, Repr

/-- The body built for `axios.post` (lines 156-161): the normalized vector as
the single named tensor `dense_input` of shape `[1,5]`, datatype `FP32`. -/
def mkInferenceRequest (normalized : List JsNum) : InferenceRequest :=
  ⟨[⟨"dense_input", [1, 5], "FP32", normalized⟩]⟩

/-- A JavaScript exception, as far as the handler can observe one. -/
inductive JsError where
  | referenceError (ident : String)
  | typeError (msg : String)
  | backendFailure (msg : String)
deriving DecidableEq, Repr

/-- `response.data.outputs[0].data[0]` (line 165): an empty `outputs` makes
`outputs[0]` `undefined` and reading `.data` of it throws a `TypeError`; an
empty `data` yields `undefined` (`none`), not an exception. -/
def extractProbability : InferenceResponse → Except JsError (Option JsNum)
  | ⟨[]⟩ => .error (.typeError "Cannot read properties of undefined")
  | ⟨o :: _⟩ => .ok o.data.head?

/-! ## Environment and configuration reads -/

/-- The two environment variables the handler reads. -/
structure Env where
  fraudModelUrl : Option String
  fraudThreshold : Option String
deriving DecidableEq, Repr

/-- `process.env.FRAUD_MODEL_URL || ''` (line 155): unset (and the falsy empty
string) becomes `''`. -/
def urlOf (env : Env) : String :=
  match env.fraudModelUrl with
  | some s => s
  | none => ""

/-- `Number(process.env.FRAUD_THRESHOLD || 0.95)` (line 166): unset or empty
falls back to the numeric default `0.95`; otherwise the string is coerced. -/
def thresholdOf (env : Env) : JsNum :=
  match env.fraudThreshold with
  | some s => if s = "" then .fin (19 / 20) else jsStrToNumber s
  | none => .fin (19 / 20)

/-! ## The import list and the unresolved `https` identifier -/

/-- The identifiers bound by the module's import statements
(src/index.ts lines 1-6). -/
def importedIdentifiers : List String :=
  ["express", "z", "axios", "swaggerUi", "OpenAPIV3", "fs"]

/-- Line 152 evaluates `new https.Agent({ rejectUnauthorized: false })`.  The
identifier `https` resolves only if some import binds it; otherwise the
evaluation throws `ReferenceError: https is not defined`. -/
def httpsImported : Bool := importedIdentifiers.contains "https"

/-! ## Decision & Response Builder (lines 165-171) -/

/-- The success payload `{ is_fraud, fraud_probability }` (lines 168-171). -/
structure Prediction where
  is_fraud : Bool
  fraud_probability : JsNum
deriving DecidableEq, Repr

/-- Lines 168-171: `is_fraud: fraudProbability > threshold` (JavaScript strict
`>`), with the probability passed through unchanged. -/
def buildPrediction (fraudProbability threshold : JsNum) : Prediction :=
  ⟨JsNum.jgt fraudProbability threshold, fraudProbability⟩

/-! ## The `/predict` handler (lines 135-179) -/

/-- How one run of the `/predict` handler ends: the 400 branch of the catch
(line 174), a thrown error handed to `next` (line 176), or the success
response (lines 168-171, where `fraud_probability` is `none` when the read
`outputs[0].data[0]` was `undefined`, a property `JSON.stringify` drops). -/
inductive PredictOutcome where
  | badRequest (details : List ZodIssue)
  | raised (e : JsError)
  | success (is_fraud : Bool) (fraud_probability : Option JsNum)
deriving DecidableEq, Repr

/-- The `/predict` handler body (lines 135-179), paired with the number of
backend calls it performed.  The backend (the `axios.post` exchange) is a
parameter taking the URL and the request body to the response body or a
network/status failure.  Control flow: validate; build `rawData`; normalize;
construct the HTTPS agent — line 152 references the unimported `https`, so
when `httpsImported` is false this throws before any call is issued — then
post, extract the probability, and build the decision. -/
def predictHandler (env : Env)
    (backend : String → InferenceRequest → Except JsError InferenceResponse)
    (scaler : ScalerVectors) (query : Query) : PredictOutcome × ℕ :=
  match parseQuery query with
  | .error issues => (.badRequest issues, 0)
  | .ok v =>
    let rawData := [v.distance, v.ratio_to_median, v.pin, v.chip, v.online]
    let normalizedData := normalizeData scaler.mean scaler.scale rawData
    if httpsImported then
      match backend (urlOf env) (mkInferenceRequest normalizedData) with
      | .error e => (.raised e, 1)
      | .ok resp =>
        match extractProbability resp with
        | .error e => (.raised e, 1)
        | .ok (some p) =>
          let pr := buildPrediction p (thresholdOf env)
          (.success pr.is_fraud (some pr.fraud_probability), 1)
        | .ok none => (.success false none, 1)
    else
      (.raised (.referenceError "https"), 0)

/-! ## HTTP Surface: the Express stack (lines 114-191) -/

/-- One registered Express layer: an error-handling middleware (4 parameters),
a routed handler, or a plain middleware. -/
inductive Layer where
  | errorware
  | route (path : String)
  | middleware (path : String)
deriving DecidableEq, Repr

/-- The app's stack in registration order: the error middleware (line 114),
`/docs` (line 120), `/health` (line 130), `/predict` (line 135), `/`
(line 182). -/
def appStack : List Layer :=
  [.errorware, .middleware "/docs", .route "/health", .route "/predict", .route "/"]

/-- Position of the `/predict` route in `appStack`. -/
def predictLayerIndex : ℕ := 3

def isErrorware : Layer → Bool
  | .errorware => true
  | _ => false

/-- Whether any error-handling middleware is registered after position `i`:
when a handler calls `next(err)`, Express resumes scanning the stack *after*
the current layer and runs only error-handling middleware. -/
def hasErrorwareAfter (stack : List Layer) (i : ℕ) : Bool :=
  (stack.drop (i + 1)).any isErrorware

/-- The response bodies the app can produce. -/
inductive Body where
  | invalidInput (details : List ZodIssue)
  | internalError
  | healthy
  | welcome
  | predictionBody (is_fraud : Bool) (fraud_probability : Option JsNum)
  | docsUi
  | expressDefaultError
  | notFound
deriving DecidableEq, Repr

structure HttpResponse where
  status : ℕ
  body : Body
deriving DecidableEq, Repr

/-- What `next(err)` from layer `i` produces: the registered error middleware
(line 116: status 500, `{"error": "Internal server error"}`) if one occurs
later in the stack, else Express's final handler (status 500 with the
framework's own error page, not the JSON of line 116). -/
def nextWithError (i : ℕ) : HttpResponse :=
  if hasErrorwareAfter appStack i then ⟨500, .internalError⟩
  else ⟨500, .expressDefaultError⟩

/-- The `/predict` route as observed over HTTP: 400 with the issue list on a
`ZodError` (line 174), the error dispatch on a thrown error (line 176), 200
with the prediction on success (lines 168-171). -/
def predictRoute (env : Env)
    (backend : String → InferenceRequest → Except JsError InferenceResponse)
    (scaler : ScalerVectors) (query : Query) : HttpResponse :=
  match predictHandler env backend scaler query with
  | (.badRequest details, _) => ⟨400, .invalidInput details⟩
  | (.raised _, _) => nextWithError predictLayerIndex
  | (.success f p, _) => ⟨200, .predictionBody f p⟩

/-- The routing table (lines 120-186): `/docs`, `/health`, `/predict`, `/`;
anything else falls through to Express's 404. -/
def appRespond (env : Env)
    (backend : String → InferenceRequest → Except JsError InferenceResponse)
    (scaler : ScalerVectors) (path : String) (query : Query) : HttpResponse :=
  if path = "/docs" then ⟨200, .docsUi⟩
  else if path = "/health" then ⟨200, .healthy⟩
  else if path = "/predict" then predictRoute env backend scaler query
  else if path = "/" then ⟨200, .welcome⟩
  else ⟨404, .notFound⟩

instance {ε α : Type} [DecidableEq ε] [DecidableEq α] : DecidableEq (Except ε α) :=
  fun a b =>
    match a, b with
    | .ok x, .ok y =>
      if h : x = y then .isTrue (by rw [h]) else .isFalse (by simp [h])
    | .error x, .error y =>
      if h : x = y then .isTrue (by rw [h]) else .isFalse (by simp [h])
    | .ok _, .error _ => .isFalse (by simp)
    | .error _, .ok _ => .isFalse (by simp)

/-! ## Concrete fixtures -/

/-- The spec's concrete valid request:
`distance=10&ratio_to_median=1.2&pin=1&chip=1&online=0`. -/
def exampleQuery : Query :=
  [("distance", "10"), ("ratio_to_median", "1.2"), ("pin", "1"), ("chip", "1"),
   ("online", "0")]

/-- The valid request with a non-numeric `distance`. -/
def qDistanceAbc : Query :=
  [("distance", "abc"), ("ratio_to_median", "1.2"), ("pin", "1"), ("chip", "1"),
   ("online", "0")]

/-- The spec's out-of-domain request: `pin=2`. -/
def qPin2 : Query :=
  [("distance", "10"), ("ratio_to_median", "1.2"), ("pin", "2"), ("chip", "1"),
   ("online", "0")]

/-- A request in which `pin` is present but bound to the empty string
(`...&pin=&...`). -/
def qEmptyPin : Query :=
  [("distance", "10"), ("ratio_to_median", "1.2"), ("pin", ""), ("chip", "1"),
   ("online", "0")]

/-- The spec's concrete scaler: `mean=[5,1,0.5,0.5,0.5]`,
`scale=[2,0.5,0.5,0.5,0.5]`. -/
def exampleScaler : ScalerVectors :=
  ⟨[.fin 5, .fin 1, .fin (1 / 2), .fin (1 / 2), .fin (1 / 2)],
   [.fin 2, .fin (1 / 2), .fin (1 / 2), .fin (1 / 2), .fin (1 / 2)]⟩

/-- An environment with neither variable set. -/
def envDefault : Env := ⟨none, none⟩

/-- A backend that fails every call (an unreachable model service). -/
def unreachableBackend : String → InferenceRequest → Except JsError InferenceResponse :=
  fun _ _ => .error (.backendFailure "ECONNREFUSED")

/-- A scaler artifact whose `scale` has a zero in position 0 (and otherwise
well-shaped length-5 arrays). -/
def zeroScaleArtifact : JVal :=
  .obj [("mean", .arr [.num 5, .num 1, .num (1 / 2), .num (1 / 2), .num (1 / 2)]),
        ("scale", .arr [.num 0, .num (1 / 2), .num (1 / 2), .num (1 / 2), .num (1 / 2)])]

/-- A scaler artifact whose sequences have fewer than 5 elements. -/
def shortArtifact : JVal :=
  .obj [("mean", .arr [.num 1]), ("scale", .arr [.num 2])]

/-- Denormalization as the spec defines it (§8): spec-side auxiliary for the
round-trip property, `denormalize(y)[i] = y[i]*scale[i] + mean[i]`. -/
def specDenormalize (mean scale y : List ℚ) : List ℚ :=
  y.mapIdx (fun i v => v * scale.getD i 0 + mean.getD i 0)
example : jsStrToNumber "" = .fin 0 := by with_unfolding_all decide
example : jsStrToNumber "  " = .fin 0 := by with_unfolding_all decide
example : jsStrToNumber "1" = .fin 1 := by with_unfolding_all decide
example : jsStrToNumber "0" = .fin 0 := by with_unfolding_all decide
example : jsStrToNumber "2" = .fin 2 := by with_unfolding_all decide
example : jsStrToNumber "abc" = .nan := by with_unfolding_all decide
example : jsStrToNumber "1.2" = .fin (6 / 5) := by with_unfolding_all decide
example : jsStrToNumber "10" = .fin 10 := by with_unfolding_all decide
example : jsStrToNumber "-0.5" = .fin (-(1 / 2)) := by with_unfolding_all decide
example : jsStrToNumber "1e2" = .fin 100 := by with_unfolding_all decide
example : jsStrToNumber "1e-2" = .fin (1 / 100) := by with_unfolding_all decide
example : jsStrToNumber ".5" = .fin (1 / 2) := by with_unfolding_all decide
example : jsStrToNumber "5." = .fin 5 := by with_unfolding_all decide
example : jsStrToNumber "." = .nan := by with_unfolding_all decide
example : jsStrToNumber "0x10" = .fin 16 := by with_unfolding_all decide
example : jsStrToNumber "0x" = .nan := by with_unfolding_all decide
example : jsStrToNumber "-0x10" = .nan := by with_unfolding_all decide
example : jsStrToNumber "Infinity" = .posInf := by with_unfolding_all decide
example : jsStrToNumber "-Infinity" = .negInf := by with_unfolding_all decide
example : jsStrToNumber "1.2.3" = .nan := by with_unfolding_all decide
example : jsStrToNumber "1e" = .nan := by with_unfolding_all decide
example : jsStrToNumber "12abc" = .nan := by with_unfolding_all decide

example : parseQuery exampleQuery = .ok ⟨.fin 10, .fin (6 / 5), .fin 1, .fin 1, .fin 0⟩ := by
  with_unfolding_all decide

example : httpsImported = false := by decide

example : ∀ env backend,
    predictHandler env backend exampleScaler exampleQuery
      = (.raised (.referenceError "https"), 0) := by
  intro env backend
  with_unfolding_all rfl

/-! ## Helper lemmas -/

theorem parseNumField_missing (q : Query) (name : String) (h : q.lookup name = none) :
    parseNumField q name = .error ⟨[name], .invalidType⟩ := by
  simp [parseNumField, h]

theorem parseBinaryField_missing (q : Query) (name : String) (h : q.lookup name = none) :
    parseBinaryField q name = .error ⟨[name], .invalidType⟩ := by
  simp [parseBinaryField, h]

theorem parseBinaryField_refine (q : Query) (name s : String)
    (hs : q.lookup name = some s)
    (h0 : jsStrToNumber s ≠ .fin 0) (h1 : jsStrToNumber s ≠ .fin 1) :
    parseBinaryField q name = .error ⟨[name], .custom⟩ := by
  simp [parseBinaryField, hs, h0, h1]

theorem parseQuery_eq_error_of_mem (q : Query) (i : ZodIssue)
    (hi : i ∈ parseQueryErrors q) : parseQuery q = .error (parseQueryErrors q) := by
  unfold parseQuery
  cases h1 : parseNumField q "distance" <;>
    cases h2 : parseNumField q "ratio_to_median" <;>
      cases h3 : parseBinaryField q "pin" <;>
        cases h4 : parseBinaryField q "chip" <;>
          cases h5 : parseBinaryField q "online" <;>
            first
              | rfl
              | (exfalso
                 revert hi
                 simp [parseQueryErrors, h1, h2, h3, h4, h5, errList])

theorem mem_errors_distance (q : Query) (i : ZodIssue)
    (h : parseNumField q "distance" = .error i) : i ∈ parseQueryErrors q := by
  simp [parseQueryErrors, h, errList]

theorem mem_errors_ratio_to_median (q : Query) (i : ZodIssue)
    (h : parseNumField q "ratio_to_median" = .error i) : i ∈ parseQueryErrors q := by
  simp [parseQueryErrors, h, errList]

theorem mem_errors_pin (q : Query) (i : ZodIssue)
    (h : parseBinaryField q "pin" = .error i) : i ∈ parseQueryErrors q := by
  simp [parseQueryErrors, h, errList]

theorem mem_errors_chip (q : Query) (i : ZodIssue)
    (h : parseBinaryField q "chip" = .error i) : i ∈ parseQueryErrors q := by
  simp [parseQueryErrors, h, errList]

theorem mem_errors_online (q : Query) (i : ZodIssue)
    (h : parseBinaryField q "online" = .error i) : i ∈ parseQueryErrors q := by
  simp [parseQueryErrors, h, errList]

theorem predictRoute_badRequest (env : Env)
    (backend : String → InferenceRequest → Except JsError InferenceResponse)
    (scaler : ScalerVectors) (q : Query) (issues : List ZodIssue)
    (h : parseQuery q = .error issues) :
    predictRoute env backend scaler q = ⟨400, .invalidInput issues⟩ := by
  simp [predictRoute, predictHandler, h]

/-! ## Claims -/

/-- C1: the claim says a request whose `distance` (or `ratio_to_median`) does
not parse as a finite real is rejected with 400 and no FeatureVector is
produced.  On the code this fails: `z.string().transform(Number)` has no
refinement on these fields, so `Number('abc') = NaN` passes validation, the
FeatureVector `[NaN, 1.2, 1, 1, 0]` is produced, and the request ends in the
500 error path — never a 400. -/
theorem c1_nonNumericDistanceAccepted :
    parseQuery qDistanceAbc = .ok ⟨.nan, .fin (6 / 5), .fin 1, .fin 1, .fin 0⟩ ∧
    (∀ env backend scaler,
        predictRoute env backend scaler qDistanceAbc
          = ⟨500, Body.expressDefaultError⟩) :=
  ⟨by with_unfolding_all decide,
   fun env backend scaler => by with_unfolding_all rfl⟩

/-- C2: downstream failures do produce status 500 and never a partial success
body, but the body `{"error": "Internal server error"}` of line 116 is
unreachable: the error middleware is registered before the routes, so
`next(error)` from `/predict` finds no error middleware later in the stack and
falls through to Express's default error response. -/
theorem c2_genericJsonBodyUnreachable :
    hasErrorwareAfter appStack predictLayerIndex = false ∧
    (∀ env backend scaler,
        predictRoute env backend scaler exampleQuery
          = ⟨500, Body.expressDefaultError⟩) ∧
    Body.expressDefaultError ≠ Body.internalError :=
  ⟨by decide, fun env backend scaler => by with_unfolding_all rfl, by decide⟩

/-- C3 counterexample: the claim says the scaler load fails fast when a scale
entry is zero or a sequence has fewer than 5 elements.  Line 12 performs no
such check: both artifacts load successfully. -/
theorem c3_counterexample_invalidArtifactsLoad :
    loadScaler (.parsed zeroScaleArtifact) = .ok zeroScaleArtifact ∧
    loadScaler (.parsed shortArtifact) = .ok shortArtifact :=
  ⟨rfl, rfl⟩

/-- C3 (amended): the scaler load fails fast exactly when the source file is
missing or its content is not valid JSON; the parsed value is accepted without
any length or zero-scale validation, and is never mutated afterwards (it is
bound once at module load). -/
theorem c3_loadFailsFastOnlyOnMissingOrMalformed :
    loadScaler .missing = .error .enoent ∧
    (∀ s, loadScaler (.unparseable s) = .error .syntaxError) ∧
    (∀ v, loadScaler (.parsed v) = .ok v) :=
  ⟨rfl, fun _ => rfl, fun _ => rfl⟩

/-- C4: for the spec's concrete input and scaler the normalized vector is
exactly `[2.5, 0.4, 1, 1, -1]`, and the request envelope would carry exactly
this vector as `dense_input` — but the claim's "this exact vector is sent to
the backend" fails: the handler throws `ReferenceError: https is not defined`
at line 152 (no `https` import exists), so zero backend calls occur. -/
theorem c4_normalizedVectorExactButNeverSent :
    normalizeData exampleScaler.mean exampleScaler.scale
        [.fin 10, .fin (6 / 5), .fin 1, .fin 1, .fin 0]
      = [.fin (5 / 2), .fin (2 / 5), .fin 1, .fin 1, .fin (-1)] ∧
    mkInferenceRequest [.fin (5 / 2), .fin (2 / 5), .fin 1, .fin 1, .fin (-1)]
      = ⟨[⟨"dense_input", [1, 5], "FP32",
          [.fin (5 / 2), .fin (2 / 5), .fin 1, .fin 1, .fin (-1)]⟩]⟩ ∧
    (∀ env backend,
        predictHandler env backend exampleScaler exampleQuery
          = (.raised (.referenceError "https"), 0)) :=
  ⟨by with_unfolding_all decide, rfl,
   fun env backend => by with_unfolding_all rfl⟩

/-- C5: the decision is `is_fraud = fraud_probability > threshold` with strict
inequality — a probability equal to the threshold is classified not-fraud —
and the probability is passed through unchanged. -/
theorem c5_strictInequalityDecision :
    ∀ p t : ℚ,
      ((buildPrediction (.fin p) (.fin t)).is_fraud = true ↔ p > t) ∧
      (buildPrediction (.fin t) (.fin t)).is_fraud = false ∧
      (buildPrediction (.fin p) (.fin t)).fraud_probability = .fin p := by
  intro p t
  refine ⟨?_, ?_, rfl⟩
  · simp [buildPrediction, JsNum.jgt, decide_eq_true_iff, gt_iff_lt]
  · simp [buildPrediction, JsNum.jgt, lt_irrefl]

/-- C6: a present `pin`/`chip`/`online` whose coerced value is neither 0 nor 1
fails the refinement, any missing required key fails with an `invalid_type`
issue, and in both cases the endpoint answers 400 with the collected issue
list; concretely `pin=2` yields 400 with a detail entry whose path is `pin`. -/
theorem c6_outOfDomainOrMissingRejected :
    (∀ (q : Query) (name s : String),
        name ∈ (["pin", "chip", "online"] : List String) →
        q.lookup name = some s →
        jsStrToNumber s ≠ .fin 0 → jsStrToNumber s ≠ .fin 1 →
        ∀ env backend scaler,
          predictRoute env backend scaler q
            = ⟨400, .invalidInput (parseQueryErrors q)⟩ ∧
          (⟨[name], ZodCode.custom⟩ : ZodIssue) ∈ parseQueryErrors q) ∧
    (∀ (q : Query) (name : String),
        name ∈ (["distance", "ratio_to_median", "pin", "chip", "online"] : List String) →
        q.lookup name = none →
        ∀ env backend scaler,
          predictRoute env backend scaler q
            = ⟨400, .invalidInput (parseQueryErrors q)⟩ ∧
          (⟨[name], ZodCode.invalidType⟩ : ZodIssue) ∈ parseQueryErrors q) ∧
    (∀ env backend scaler,
        predictRoute env backend scaler qPin2
          = ⟨400, .invalidInput (parseQueryErrors qPin2)⟩ ∧
        (⟨["pin"], ZodCode.custom⟩ : ZodIssue) ∈ parseQueryErrors qPin2 ∧
        parseQueryErrors qPin2 ≠ []) := by
  refine ⟨?_, ?_, ?_⟩
  · intro q name s hname hs h0 h1 env backend scaler
    have hname' : name = "pin" ∨ name = "chip" ∨ name = "online" := by
      simpa using hname
    have hmem : (⟨[name], ZodCode.custom⟩ : ZodIssue) ∈ parseQueryErrors q := by
      rcases hname' with h | h | h <;> subst h
      · exact mem_errors_pin q _ (parseBinaryField_refine q _ s hs h0 h1)
      · exact mem_errors_chip q _ (parseBinaryField_refine q _ s hs h0 h1)
      · exact mem_errors_online q _ (parseBinaryField_refine q _ s hs h0 h1)
    exact ⟨predictRoute_badRequest env backend scaler q _
      (parseQuery_eq_error_of_mem q _ hmem), hmem⟩
  · intro q name hname hs env backend scaler
    have hname' : name = "distance" ∨ name = "ratio_to_median" ∨ name = "pin"
        ∨ name = "chip" ∨ name = "online" := by
      simpa using hname
    have hmem : (⟨[name], ZodCode.invalidType⟩ : ZodIssue) ∈ parseQueryErrors q := by
      rcases hname' with h | h | h | h | h <;> subst h
      · exact mem_errors_distance q _ (parseNumField_missing q _ hs)
      · exact mem_errors_ratio_to_median q _ (parseNumField_missing q _ hs)
      · exact mem_errors_pin q _ (parseBinaryField_missing q _ hs)
      · exact mem_errors_chip q _ (parseBinaryField_missing q _ hs)
      · exact mem_errors_online q _ (parseBinaryField_missing q _ hs)
    exact ⟨predictRoute_badRequest env backend scaler q _
      (parseQuery_eq_error_of_mem q _ hmem), hmem⟩
  · intro env backend scaler
    exact ⟨by with_unfolding_all rfl, by with_unfolding_all decide,
      by with_unfolding_all decide⟩

/-- Witness for C6: the refinement branch applied at the concrete request
`pin=2`. -/
theorem c6_witness :
    predictRoute envDefault unreachableBackend exampleScaler qPin2
        = ⟨400, .invalidInput (parseQueryErrors qPin2)⟩ ∧
    (⟨["pin"], ZodCode.custom⟩ : ZodIssue) ∈ parseQueryErrors qPin2 :=
  c6_outOfDomainOrMissingRejected.1 qPin2 "pin" "2"
    (by decide) (by with_unfolding_all decide) (by with_unfolding_all decide)
    (by with_unfolding_all decide) envDefault unreachableBackend exampleScaler

/-- C7: normalization is a pure elementwise affine transform and the left
inverse of the spec's denormalization, exactly over the rationals, for every
5-element vector and scaler with nonzero scales. -/
theorem c7_normalizeLeftInverseOfDenormalize
    (x0 x1 x2 x3 x4 m0 m1 m2 m3 m4 s0 s1 s2 s3 s4 : ℚ)
    (h0 : s0 ≠ 0) (h1 : s1 ≠ 0) (h2 : s2 ≠ 0) (h3 : s3 ≠ 0) (h4 : s4 ≠ 0) :
    normalizeData
        [.fin m0, .fin m1, .fin m2, .fin m3, .fin m4]
        [.fin s0, .fin s1, .fin s2, .fin s3, .fin s4]
        ((specDenormalize [m0, m1, m2, m3, m4] [s0, s1, s2, s3, s4]
            [x0, x1, x2, x3, x4]).map JsNum.fin)
      = [.fin x0, .fin x1, .fin x2, .fin x3, .fin x4] := by
  simp only [specDenormalize, normalizeData, List.mapIdx_cons, List.mapIdx_nil,
    List.map_cons, List.map_nil, List.getD_cons_zero, List.getD_cons_succ,
    jsIndex, List.get?_cons_zero, List.get?_cons_succ, Option.getD_some,
    JsNum.sub, JsNum.div, h0, h1, h2, h3, h4, if_false, if_neg,
    List.cons.injEq, and_true, JsNum.fin.injEq]
  refine ⟨?_, ?_, ?_, ?_, ?_⟩ <;> field_simp

/-- Witness for C7: the round trip at `x = 0`, `mean = 0`, `scale = 1`. -/
theorem c7_witness :
    normalizeData
        [.fin 0, .fin 0, .fin 0, .fin 0, .fin 0]
        [.fin 1, .fin 1, .fin 1, .fin 1, .fin 1]
        ((specDenormalize [0, 0, 0, 0, 0] [1, 1, 1, 1, 1]
            [0, 0, 0, 0, 0]).map JsNum.fin)
      = [.fin 0, .fin 0, .fin 0, .fin 0, .fin 0] :=
  c7_normalizeLeftInverseOfDenormalize 0 0 0 0 0 0 0 0 0 0 1 1 1 1 1
    (by norm_num) (by norm_num) (by norm_num) (by norm_num) (by norm_num)

/-- C8: validation failures short-circuit before any backend call — in fact
the handler makes zero backend calls on every input, because line 152 throws
`ReferenceError: https is not defined` before `axios.post` on every validated
request.  The claim's "exactly one backend call per validated request"
therefore fails. -/
theorem c8_zeroBackendCallsAlways :
    (∀ env backend scaler q, (predictHandler env backend scaler q).2 = 0) ∧
    (∀ env backend,
        (predictHandler env backend exampleScaler exampleQuery).1
          = .raised (.referenceError "https")) := by
  constructor
  · intro env backend scaler q
    have h : httpsImported = false := by decide
    rcases hq : parseQuery q with L | v
    · simp [predictHandler, hq]
    · simp [predictHandler, hq, h]
  · intro env backend
    with_unfolding_all rfl

/-- C9: `/health` answers 200 `{"status":"healthy"}` for every environment,
backend, scaler, and query — the handler consults none of them. -/
theorem c9_healthAlwaysHealthy :
    ∀ env backend scaler q,
      appRespond env backend scaler "/health" q = ⟨200, Body.healthy⟩ := by
  intro env backend scaler q
  rfl

/-- C10: a `pin` parameter present but equal to the empty string is accepted:
`Number('')` is `0`, which passes the `{0,1}` refinement, so the request
validates with `pin = 0` and no 400 is produced. -/
theorem c10_emptyStringPinAcceptedAsZero :
    jsStrToNumber "" = .fin 0 ∧
    parseQuery qEmptyPin = .ok ⟨.fin 10, .fin (6 / 5), .fin 0, .fin 1, .fin 0⟩ ∧
    (∀ env backend scaler,
        predictRoute env backend scaler qEmptyPin
          = ⟨500, Body.expressDefaultError⟩) :=
  ⟨by with_unfolding_all decide, by with_unfolding_all decide,
   fun env backend scaler => by with_unfolding_all rfl⟩
